import Mathlib

/-!
Verification of the camera / component / rendering-session layer of the
opengl-interactive-window repository.  The Python sources are shallowly
embedded: cameras are records over an ordered field (trigonometric and
square-root functions are passed as parameters, instantiated with the real
functions where a statement needs them), components and the OpenGL session
are records over `ℚ`, and fallible constructors return `Except`.
-/

/- ## Vectors (glm.vec3 values used by src/utils/camera.py) -/

structure Vec3 (K : Type) where
  x : K
  y : K
  z : K
deriving DecidableEq

def Vec3.add {K : Type} [Field K] (a b : Vec3 K) : Vec3 K :=
  ⟨a.x + b.x, a.y + b.y, a.z + b.z⟩

def Vec3.sub {K : Type} [Field K] (a b : Vec3 K) : Vec3 K :=
  ⟨a.x - b.x, a.y - b.y, a.z - b.z⟩

def Vec3.smul {K : Type} [Field K] (c : K) (v : Vec3 K) : Vec3 K :=
  ⟨c * v.x, c * v.y, c * v.z⟩

/-- glm.cross -/
def Vec3.cross {K : Type} [Field K] (a b : Vec3 K) : Vec3 K :=
  ⟨a.y * b.z - a.z * b.y, a.z * b.x - a.x * b.z, a.x * b.y - a.y * b.x⟩

/-- glm.normalize: divide by the euclidean length; the square-root function
of the scalar field is passed as a parameter. -/
def Vec3.normalize {K : Type} [Field K] (sqrtF : K → K) (v : Vec3 K) : Vec3 K :=
  let n := sqrtF (v.x * v.x + v.y * v.y + v.z * v.z)
  ⟨v.x / n, v.y / n, v.z / n⟩

/-- glm.radians: degrees to radians. -/
def radians {K : Type} [Field K] (piK : K) (deg : K) : K :=
  deg * piK / 180

/- ## Camera (src/utils/camera.py, class Camera) -/

structure Camera (K : Type) where
  active : Bool
  speed : K
  sensitivity : K
  last_xpos : K
  last_ypos : K
  yaw : K
  pitch : K
  position : Vec3 K
  front : Vec3 K
  up : Vec3 K
deriving DecidableEq

/-- Camera.__init__: sets active to True, stores the configuration values and
initialises position/front/up (front = (0,0,-1), up = (0,1,0)). -/
def Camera.init {K : Type} [Field K] (speed sensitivity last_xpos last_ypos yaw pitch : K)
    (position : Vec3 K) : Camera K :=
  { active := true
    speed := speed
    sensitivity := sensitivity
    last_xpos := last_xpos
    last_ypos := last_ypos
    yaw := yaw
    pitch := pitch
    position := position
    front := ⟨0, 0, -1⟩
    up := ⟨0, 1, 0⟩ }

/-- Camera.move_forward: position += speed * front, only when active. -/
def Camera.moveForward {K : Type} [Field K] (c : Camera K) : Camera K :=
  if c.active then { c with position := c.position.add (Vec3.smul c.speed c.front) } else c

/-- Camera.move_right: position += speed * normalize(cross(front, up)), only when active. -/
def Camera.moveRight {K : Type} [Field K] (sqrtF : K → K) (c : Camera K) : Camera K :=
  if c.active then
    { c with position := c.position.add (Vec3.smul c.speed (Vec3.normalize sqrtF (Vec3.cross c.front c.up))) }
  else c

/-- Camera.move_backward: position -= speed * front, only when active. -/
def Camera.moveBackward {K : Type} [Field K] (c : Camera K) : Camera K :=
  if c.active then { c with position := c.position.sub (Vec3.smul c.speed c.front) } else c

/-- Camera.move_left: position -= speed * normalize(cross(front, up)), only when active. -/
def Camera.moveLeft {K : Type} [Field K] (sqrtF : K → K) (c : Camera K) : Camera K :=
  if c.active then
    { c with position := c.position.sub (Vec3.smul c.speed (Vec3.normalize sqrtF (Vec3.cross c.front c.up))) }
  else c

/-- Camera.move_front: mouse look.  Accumulates the sensitivity-scaled cursor
offsets into yaw/pitch, clamps pitch to [-90, 90], then recomputes the
normalized front vector from yaw and pitch.  The trigonometric functions and
pi of the scalar field are passed as parameters. -/
def Camera.moveFront {K : Type} [LinearOrderedField K] (cosF sinF sqrtF : K → K) (piK : K)
    (c : Camera K) (xpos ypos : K) : Camera K :=
  let xoffset := c.sensitivity * (xpos - c.last_xpos)
  let yoffset := c.sensitivity * (c.last_ypos - ypos)
  let yaw := c.yaw + xoffset
  let pitch1 := c.pitch + yoffset
  let pitch := if pitch1 ≥ 90 then 90 else if pitch1 ≤ -90 then -90 else pitch1
  let front : Vec3 K :=
    ⟨cosF (radians piK yaw) * cosF (radians piK pitch),
     sinF (radians piK pitch),
     sinF (radians piK yaw) * cosF (radians piK pitch)⟩
  { c with
    last_xpos := xpos
    last_ypos := ypos
    yaw := yaw
    pitch := pitch
    front := Vec3.normalize sqrtF front }

/- ## RestrictedCamera (src/utils/camera.py, class RestrictedCamera) -/

structure RestrictedCamera (K : Type) extends Camera K where
  min_xpos : K
  max_xpos : K
  min_ypos : K
  max_ypos : K
  min_zpos : K
  max_zpos : K
deriving DecidableEq

/-- RestrictedCamera.check_position: False when any coordinate leaves its
[min, max] interval. -/
def RestrictedCamera.checkPosition {K : Type} [LinearOrderedField K]
    (rc : RestrictedCamera K) : Bool :=
  if rc.position.x < rc.min_xpos ∨ rc.position.x > rc.max_xpos then false
  else if rc.position.y < rc.min_ypos ∨ rc.position.y > rc.max_ypos then false
  else if rc.position.z < rc.min_zpos ∨ rc.position.z > rc.max_zpos then false
  else true

/-- Common shape of the four RestrictedCamera moves: remember the position,
perform the parent-class move, and revert the position when
check_position() fails. -/
def RestrictedCamera.guardedMove {K : Type} [LinearOrderedField K]
    (rc : RestrictedCamera K) (F : Camera K → Camera K) : RestrictedCamera K :=
  let p := rc.position
  let rc1 := { rc with toCamera := F rc.toCamera }
  if rc1.checkPosition then rc1
  else { rc1 with toCamera := { rc1.toCamera with position := p } }

/-- RestrictedCamera.move_forward. -/
def RestrictedCamera.moveForward {K : Type} [LinearOrderedField K]
    (rc : RestrictedCamera K) : RestrictedCamera K :=
  rc.guardedMove Camera.moveForward

/-- RestrictedCamera.move_right. -/
def RestrictedCamera.moveRight {K : Type} [LinearOrderedField K] (sqrtF : K → K)
    (rc : RestrictedCamera K) : RestrictedCamera K :=
  rc.guardedMove (Camera.moveRight sqrtF)

/-- RestrictedCamera.move_backward. -/
def RestrictedCamera.moveBackward {K : Type} [LinearOrderedField K]
    (rc : RestrictedCamera K) : RestrictedCamera K :=
  rc.guardedMove Camera.moveBackward

/-- RestrictedCamera.move_left. -/
def RestrictedCamera.moveLeft {K : Type} [LinearOrderedField K] (sqrtF : K → K)
    (rc : RestrictedCamera K) : RestrictedCamera K :=
  rc.guardedMove (Camera.moveLeft sqrtF)

/-- One positional move command of the RestrictedCamera interface. -/
inductive MoveCmd : Type
  | forward
  | right
  | backward
  | left
deriving DecidableEq

/-- Dispatch a move command to the corresponding RestrictedCamera method. -/
def RestrictedCamera.applyMove {K : Type} [LinearOrderedField K] (sqrtF : K → K)
    (rc : RestrictedCamera K) : MoveCmd → RestrictedCamera K
  | MoveCmd.forward => rc.moveForward
  | MoveCmd.right => rc.moveRight sqrtF
  | MoveCmd.backward => rc.moveBackward
  | MoveCmd.left => rc.moveLeft sqrtF

/-- The unguarded (parent-class) effect of a move command, before the
check_position revert. -/
def RestrictedCamera.rawMove {K : Type} [LinearOrderedField K] (sqrtF : K → K)
    (rc : RestrictedCamera K) : MoveCmd → RestrictedCamera K
  | MoveCmd.forward => { rc with toCamera := rc.toCamera.moveForward }
  | MoveCmd.right => { rc with toCamera := Camera.moveRight sqrtF rc.toCamera }
  | MoveCmd.backward => { rc with toCamera := rc.toCamera.moveBackward }
  | MoveCmd.left => { rc with toCamera := Camera.moveLeft sqrtF rc.toCamera }

/-- A finite sequence of positional moves, applied in order. -/
def RestrictedCamera.applyMoves {K : Type} [LinearOrderedField K] (sqrtF : K → K)
    (rc : RestrictedCamera K) (moves : List MoveCmd) : RestrictedCamera K :=
  moves.foldl (RestrictedCamera.applyMove sqrtF) rc

/- ## OpenGLComponent.transform (src/utils/components.py) -/

/-- numpy.dot on rectangular matrices: entry (i, j) of the product is the sum
over k of A i k * B k j. -/
def npDot {m n p : ℕ} (A : Matrix (Fin m) (Fin n) ℚ) (B : Matrix (Fin n) (Fin p) ℚ) :
    Matrix (Fin m) (Fin p) ℚ :=
  Matrix.of fun i j => ∑ k, A i k * B k j

/-- OpenGLComponent.transform: self.vertices = np.dot(matrix, self.vertices),
the value that replaces the stored vertex array. -/
def transformVertices {n p : ℕ} (matrix : Matrix (Fin n) (Fin n) ℚ)
    (vertices : Matrix (Fin n) (Fin p) ℚ) : Matrix (Fin n) (Fin p) ℚ :=
  npDot matrix vertices

/- ## 2D components (src/utils/components.py) -/

/-- OpenGL rendering primitives used by the 2D component classes. -/
inductive GLPrimitive : Type
  | points
  | lines
  | lineStrip
  | lineLoop
  | triangles
  | triangleStrip
  | triangleFan
deriving DecidableEq

/-- A 2D OpenGLComponent: rendering primitive, vertex rows and an RGBA color. -/
structure Component2D (K : Type) where
  primitive : GLPrimitive
  vertices : List (K × K)
  color : List K
deriving DecidableEq

/-- rgb_black_color (src/utils/colors.py): opaque black. -/
def rgbBlackColor {K : Type} [Field K] : List K := [0, 0, 0, 1]

/-- OpenGLComponent.__init__: a missing color defaults to black, a color that
does not have four dimensions raises ValueError. -/
def componentInit {K : Type} [Field K] (primitive : GLPrimitive) (vertices : List (K × K))
    (color : Option (List K)) : Except String (Component2D K) :=
  match color with
  | none => Except.ok { primitive := primitive, vertices := vertices, color := rgbBlackColor }
  | some c =>
      if c.length ≠ 4 then Except.error "expected color to have four dimensions"
      else Except.ok { primitive := primitive, vertices := vertices, color := c }

/-- OpenGLComponent.__len__: the number of stored vertices. -/
def componentLen {K : Type} (comp : Component2D K) : ℕ :=
  comp.vertices.length

/-- Trapezoid.__init__: raises ValueError unless exactly four vertices are
given, then stacks the first vertex below the four (np.vstack((vertices,
vertices[0]))) and builds a GL_TRIANGLE_STRIP component. -/
def trapezoid {K : Type} [Field K] (vertices : List (K × K)) (color : Option (List K)) :
    Except String (Component2D K) :=
  if vertices.length ≠ 4 then Except.error "expected four vertices"
  else componentInit GLPrimitive.triangleStrip (vertices ++ vertices.take 1) color

/-- numpy.linspace with endpoint=True: num samples from start to stop, sample
i is start + i * ((stop - start) / (num - 1)). -/
def linspace {K : Type} [Field K] (start stop : K) (num : ℕ) : List K :=
  (List.range num).map fun i : ℕ => start + (i : K) * ((stop - start) / ((num - 1 : ℕ) : K))

/-- Circle.__init__ angles: np.linspace(2*pi/num_vertices, 2*pi, num_vertices). -/
def circleAngles {K : Type} [Field K] (piK : K) (num_vertices : ℕ) : List K :=
  linspace (2 * piK / (num_vertices : K)) (2 * piK) num_vertices

/-- Circle.__init__ vertices: x = x0 + cos(angles)*radius, y = y0 +
sin(angles)*radius, zipped into (x, y) rows. -/
def circleVertices {K : Type} [Field K] (cosF sinF : K → K) (piK : K)
    (x0 y0 radius : K) (num_vertices : ℕ) : List (K × K) :=
  (circleAngles piK num_vertices).map fun t => (x0 + cosF t * radius, y0 + sinF t * radius)

/- ## Materials and the OpenGL session (src/utils/opengl_session.py) -/

/-- One material of a loaded WaveFront object: vertex data plus the Phong
lighting coefficients, model matrix and texture file used when rendering. -/
structure Material : Type where
  vertices : List (ℚ × ℚ × ℚ)
  textures : List (ℚ × ℚ)
  normals : List (ℚ × ℚ × ℚ)
  ka : ℚ
  kd : ℚ
  ks : ℚ
  ns : ℚ
  model : List (List ℚ)
  texture_filepath : String
deriving DecidableEq

/-- A component (WaveFrontObject) as registered with the session: a list of
materials. -/
structure WaveFrontComponent : Type where
  materials : List Material
deriving DecidableEq

/-- The observable effect of OpenGLSession._render_component: the texture id
bound, the lighting uniforms set, and the glDrawArrays offset and count. -/
structure DrawCall : Type where
  idx : ℕ
  ka : ℚ
  kd : ℚ
  ks : ℚ
  ns : ℚ
  model : List (List ℚ)
  offset : ℕ
  count : ℕ
deriving DecidableEq

/-- Exceptions raised by OpenGLSession.render. -/
inductive SessionError : Type
  | uninitializedBufferException
deriving DecidableEq

/-- The session state relevant to component registration and rendering:
the registered materials, the bufferization flag, and the contents the
GPU-side buffers received from process_buffers(). -/
structure Session : Type where
  materials : List Material
  buffered : Bool
  posBuffer : List (ℚ × ℚ × ℚ)
  texBuffer : List (ℚ × ℚ)
  normBuffer : List (ℚ × ℚ × ℚ)
deriving DecidableEq

/-- OpenGLSession.__init__: no materials registered, buffered = False, no
buffer contents uploaded yet. -/
def newSession : Session :=
  { materials := [], buffered := false, posBuffer := [], texBuffer := [], normBuffer := [] }

/-- OpenGLSession.add_component: appends every material of the component to
the registration list; the buffered flag is not touched. -/
def Session.addComponent (s : Session) (c : WaveFrontComponent) : Session :=
  { s with materials := s.materials ++ c.materials }

/-- OpenGLSession.clear_components: empties the registration list and resets
the buffered flag. -/
def Session.clearComponents (s : Session) : Session :=
  { s with materials := [], buffered := false }

/-- OpenGLSession.process_buffers: uploads the vstack-concatenation of the
registered materials' vertex, texture and normal arrays to the GPU buffers
and sets the buffered flag. -/
def Session.processBuffers (s : Session) : Session :=
  { s with
    posBuffer := (s.materials.map Material.vertices).flatten
    texBuffer := (s.materials.map Material.textures).flatten
    normBuffer := (s.materials.map Material.normals).flatten
    buffered := true }

/-- The loop body of OpenGLSession.render: each material produces one
_render_component call, whose draw call starts at the running vertex offset
and covers len(mt.vertices) vertices; the offset then advances by that
count and the texture id by one. -/
def renderMaterials : ℕ → ℕ → List Material → List DrawCall
  | _, _, [] => []
  | idx, offset, mt :: rest =>
      { idx := idx, ka := mt.ka, kd := mt.kd, ks := mt.ks, ns := mt.ns, model := mt.model,
        offset := offset, count := mt.vertices.length }
        :: renderMaterials (idx + 1) (offset + mt.vertices.length) rest

/-- OpenGLSession.render: raises UninitializedBufferException when the
buffered flag is False, otherwise renders every registered material in
registration order starting from offset 0.  `flatten(self.materials)` is the
identity here because the registration list is a flat list of materials. -/
def Session.render (s : Session) : Except SessionError (List DrawCall) :=
  if s.buffered = false then Except.error SessionError.uninitializedBufferException
  else Except.ok (renderMaterials 0 0 s.materials)

/-- One call of the session-lifecycle API relevant to the buffered flag. -/
inductive SessionOp : Type
  | addComponent (c : WaveFrontComponent)
  | clearComponents
  | processBuffers
deriving DecidableEq

/-- Dispatch one lifecycle call to the session. -/
def Session.applyOp (s : Session) : SessionOp → Session
  | SessionOp.addComponent c => s.addComponent c
  | SessionOp.clearComponents => s.clearComponents
  | SessionOp.processBuffers => s.processBuffers

/-- Run a sequence of lifecycle calls from a starting state. -/
def Session.runOps (s : Session) (ops : List SessionOp) : Session :=
  ops.foldl Session.applyOp s

/-- Spec-side readiness predicate: true exactly when a process_buffers call
occurs after the last clear_components call (or after construction when no
clear_components occurs). -/
def readySpec (ops : List SessionOp) : Bool :=
  ops.foldl
    (fun b op =>
      match op with
      | SessionOp.addComponent _ => b
      | SessionOp.clearComponents => false
      | SessionOp.processBuffers => true)
    false

/- ## WaveFrontObject OBJ parsing -/

/-- Modelled from the spec: helper splitting of a character list on a
separator character, used to tokenize OBJ lines; the WaveFrontObject class
itself is not present under src (only its import and callers are). -/
def splitOnChar (sep : Char) : List Char → List (List Char)
  | [] => [[]]
  | c :: cs =>
      let r := splitOnChar sep cs
      if c = sep then [] :: r
      else
        match r with
        | [] => [[c]]
        | w :: ws => (c :: w) :: ws

/-- Modelled from the spec: decimal digit sequence to a natural number. -/
def parseNatNum (cs : List Char) : Option ℕ :=
  if cs = [] then none
  else
    cs.foldl
      (fun acc c =>
        acc.bind fun n =>
          if c.isDigit then some (10 * n + (c.toNat - 48)) else none)
      (some 0)

/-- Modelled from the spec: unsigned decimal numeral (integer part with an
optional fractional part after a decimal point) to a rational. -/
def parseUnsignedDecimal (cs : List Char) : Option ℚ :=
  match splitOnChar '.' cs with
  | [w] => (parseNatNum w).map fun n => (n : ℚ)
  | [w, f] => do
      let n ← parseNatNum w
      let m ← parseNatNum f
      pure ((n : ℚ) + (m : ℚ) / (10 : ℚ) ^ f.length)
  | _ => none

/-- Modelled from the spec: signed decimal numeral to a rational. -/
def parseDecimal (cs : List Char) : Option ℚ :=
  match cs with
  | '-' :: rest => (parseUnsignedDecimal rest).map Neg.neg
  | _ => parseUnsignedDecimal cs

/-- Modelled from the spec: a face vertex token is slash-separated, the part
before the first slash being the 1-based vertex index (texture/normal
indices optional). -/
def faceVertexIndex (tok : List Char) : Option ℕ :=
  ((splitOnChar '/' tok).head?).bind fun w =>
    (parseNatNum w).bind fun i => if i = 0 then none else some i

/-- Modelled from the spec: the data accumulated by the WaveFrontObject
OBJ parser, the face list already expanded into a flat vertex list by
dereferencing the 1-based indices. -/
structure ObjData : Type where
  vertices : List (ℚ × ℚ × ℚ)
  textureCoords : List (ℚ × ℚ)
  normals : List (ℚ × ℚ × ℚ)
  faceVertices : List (ℚ × ℚ × ℚ)
  activeMaterial : List Char
deriving DecidableEq

/-- Modelled from the spec: empty parser state. -/
def ObjData.empty : ObjData :=
  { vertices := [], textureCoords := [], normals := [], faceVertices := [], activeMaterial := [] }

/-- Modelled from the spec: one line of the OBJ-like format.  Lines starting
with a hash sign are ignored; `v` adds a vertex, `vt` a texture coordinate,
`vn` a normal; `f` dereferences its 1-based indices into the flat triangle
vertex list; `usemtl` switches the active material.  The WaveFrontObject
class is not present under src, so this follows §4.2/§6 of the spec. -/
def parseObjLine (st : ObjData) (line : List Char) : ObjData :=
  if line.head? = some '#' then st
  else
    let tokens := (splitOnChar ' ' line).filter fun t => t ≠ []
    match tokens with
    | [] => st
    | t :: args =>
        if t = "v".toList then
          match args.map parseDecimal with
          | [some a, some b, some c] => { st with vertices := st.vertices ++ [(a, b, c)] }
          | _ => st
        else if t = "vt".toList then
          match args.map parseDecimal with
          | [some a, some b] => { st with textureCoords := st.textureCoords ++ [(a, b)] }
          | _ => st
        else if t = "vn".toList then
          match args.map parseDecimal with
          | [some a, some b, some c] => { st with normals := st.normals ++ [(a, b, c)] }
          | _ => st
        else if t = "f".toList then
          { st with
            faceVertices := st.faceVertices ++
              args.filterMap fun tok =>
                (faceVertexIndex tok).bind fun i => st.vertices.get? (i - 1) }
        else if t = "usemtl".toList then
          match args with
          | [name] => { st with activeMaterial := name }
          | _ => st
        else st

/-- Modelled from the spec: the WaveFrontObject parser run over the input
lines in order. -/
def wavefrontLoad (lines : List String) : ObjData :=
  lines.foldl (fun st l => parseObjLine st l.toList) ObjData.empty

/- ## Concrete instances used by witnesses and counterexamples -/

/-- A concrete material: one triangle, unit lighting coefficients. -/
def sampleMaterial : Material :=
  { vertices := [(0, 0, 0), (1, 0, 0), (0, 1, 0)], textures := [], normals := [],
    ka := 1, kd := 1, ks := 1, ns := 1, model := [], texture_filepath := "cube.jpg" }

/-- A concrete component holding the sample material. -/
def sampleComponent : WaveFrontComponent :=
  { materials := [sampleMaterial] }

/-- A session that has processed its buffers for the sample material. -/
def sampleReadySession : Session :=
  Session.processBuffers (Session.addComponent newSession sampleComponent)

/-- A RestrictedCamera built with the default bounds and default camera
configuration (speed 0.2, sensitivity 0.3, yaw -90) but with its initial
position (2000, 0, 1) outside the default box. -/
def rcOutside : RestrictedCamera ℚ :=
  { toCamera := Camera.init (1/5) (3/10) 0 0 (-90) 0 ⟨2000, 0, 1⟩
    min_xpos := -1000, max_xpos := 1000, min_ypos := -1000, max_ypos := 1000,
    min_zpos := -1000, max_zpos := 1000 }

/-- A RestrictedCamera with the default bounds and the default initial
position (0, 0, 1), which lies inside the box. -/
def rcInside : RestrictedCamera ℚ :=
  { toCamera := Camera.init (1/5) (3/10) 0 0 (-90) 0 ⟨0, 0, 1⟩
    min_xpos := -1000, max_xpos := 1000, min_ypos := -1000, max_ypos := 1000,
    min_zpos := -1000, max_zpos := 1000 }

/-- A default-configured camera over ℚ. -/
def sampleCamera : Camera ℚ :=
  Camera.init (1/5) (3/10) 0 0 (-90) 0 ⟨0, 0, 1⟩

/-- The sample camera with the active flag cleared. -/
def sampleInactiveCamera : Camera ℚ :=
  { sampleCamera with active := false }

/- ## C6: OpenGLComponent.transform -/

/-- C6 counterexample: transform does not right-multiply.  With M = [[0,1],[0,0]]
and V = [[1,0],[0,0]], the stored result np.dot(M, V) differs from V · M. -/
theorem transform_not_right_multiplication :
    transformVertices !![0, (1 : ℚ); 0, 0] !![1, (0 : ℚ); 0, 0]
      ≠ !![1, (0 : ℚ); 0, 0] * !![0, (1 : ℚ); 0, 0] := by
  intro h
  have h2 := congrFun (congrFun h 0) 1
  simp [transformVertices, npDot, Matrix.mul_apply, Fin.sum_univ_two] at h2

/-- C6 (amended): transform(M) replaces the stored vertices with the
left-multiplication M · V of the stored vertex array by the transform
matrix. -/
theorem transform_left_multiplies {n p : ℕ} (M : Matrix (Fin n) (Fin n) ℚ)
    (V : Matrix (Fin n) (Fin p) ℚ) : transformVertices M V = M * V := by
  ext i j
  rw [Matrix.mul_apply]
  rfl

/- ## C8: OBJ parser face expansion -/

/-- C8: parsing `v 0 0 0`, `v 1 0 0`, `v 0 1 0`, `f 1 2 3` expands the face,
via its 1-based indices, into a flat vertex list holding exactly the single
triangle (0,0,0), (1,0,0), (0,1,0) in that order. -/
theorem obj_face_expansion :
    (wavefrontLoad ["v 0 0 0", "v 1 0 0", "v 0 1 0", "f 1 2 3"]).faceVertices
      = [((0 : ℚ), (0 : ℚ), (0 : ℚ)), (1, 0, 0), (0, 1, 0)] := by
  decide

/- ## C9: Trapezoid constructor -/

/-- C9: the Trapezoid constructor errors unless given exactly four vertices;
on success the stored vertex array is the input with its first vertex
appended again, so the component holds five vertices and its length is 5. -/
theorem trapezoid_stores_five_vertices (vs : List (ℚ × ℚ)) (color : Option (List ℚ)) :
    (vs.length ≠ 4 → trapezoid vs color = Except.error "expected four vertices") ∧
    (∀ comp : Component2D ℚ, trapezoid vs color = Except.ok comp →
      vs.length = 4 ∧ comp.vertices = vs ++ vs.take 1 ∧ componentLen comp = 5) := by
  constructor
  · intro hne
    simp [trapezoid, hne]
  · intro comp hok
    by_cases h4 : vs.length = 4
    · refine ⟨h4, ?_⟩
      have hvert : comp.vertices = vs ++ vs.take 1 := by
        rw [trapezoid, if_neg (by simp [h4])] at hok
        cases color with
        | none =>
            simp only [componentInit] at hok
            injection hok with h
            rw [← h]
        | some c =>
            by_cases hc : c.length = 4
            · simp only [componentInit] at hok
              rw [if_neg (fun hne => hne hc)] at hok
              injection hok with h
              rw [← h]
            · simp [componentInit, hc] at hok
      refine ⟨hvert, ?_⟩
      rw [componentLen, hvert]
      simp [List.length_append, List.length_take, h4]
    · rw [trapezoid, if_pos h4] at hok
      exact Except.noConfusion hok

/-- C9 witness: a three-vertex input errors, and the concrete four-vertex
trapezoid stores five vertices. -/
theorem trapezoid_stores_five_vertices_witness :
    trapezoid [((0 : ℚ), (0 : ℚ)), (1, 0), (1, 1)] none
        = Except.error "expected four vertices" ∧
      ([((0 : ℚ), (0 : ℚ)), (1, 0), (1, 1), (0, 1)].length = 4 ∧
        Component2D.vertices
            { primitive := GLPrimitive.triangleStrip,
              vertices := [((0 : ℚ), (0 : ℚ)), (1, 0), (1, 1), (0, 1), (0, 0)],
              color := rgbBlackColor }
          = [((0 : ℚ), (0 : ℚ)), (1, 0), (1, 1), (0, 1)]
              ++ [((0 : ℚ), (0 : ℚ)), (1, 0), (1, 1), (0, 1)].take 1 ∧
        componentLen
            { primitive := GLPrimitive.triangleStrip,
              vertices := [((0 : ℚ), (0 : ℚ)), (1, 0), (1, 1), (0, 1), (0, 0)],
              color := rgbBlackColor }
          = 5) :=
  ⟨(trapezoid_stores_five_vertices [(0, 0), (1, 0), (1, 1)] none).1 (by decide),
   (trapezoid_stores_five_vertices [(0, 0), (1, 0), (1, 1), (0, 1)] none).2 _ rfl⟩

/- ## C10: the active flag -/

/-- C10: when the active flag is cleared, the four positional moves leave the
camera unchanged, while move_front performs exactly the updates it would
perform on an active camera (only the preserved active flag differs). -/
theorem inactive_camera_moves {K : Type} [LinearOrderedField K]
    (cosF sinF sqrtF : K → K) (piK : K) (c : Camera K) (x y : K) (h : c.active = false) :
    (c.moveForward = c ∧ c.moveBackward = c ∧
     Camera.moveRight sqrtF c = c ∧ Camera.moveLeft sqrtF c = c) ∧
    Camera.moveFront cosF sinF sqrtF piK c x y
      = { Camera.moveFront cosF sinF sqrtF piK { c with active := true } x y with
          active := false } := by
  constructor
  · refine ⟨?_, ?_, ?_, ?_⟩ <;>
      simp [Camera.moveForward, Camera.moveBackward, Camera.moveRight, Camera.moveLeft, h]
  · cases c with
    | mk active speed sens lx ly yaw pitch pos front up =>
        simp only at h
        subst h
        simp only [Camera.moveFront]

/-- C10 witness: the theorem applied to the concrete inactive camera. -/
theorem inactive_camera_moves_witness :
    Camera.active sampleInactiveCamera = false ∧
      ((sampleInactiveCamera.moveForward = sampleInactiveCamera ∧
        sampleInactiveCamera.moveBackward = sampleInactiveCamera ∧
        Camera.moveRight (fun _ => 0) sampleInactiveCamera = sampleInactiveCamera ∧
        Camera.moveLeft (fun _ => 0) sampleInactiveCamera = sampleInactiveCamera) ∧
       Camera.moveFront (fun _ => 0) (fun _ => 0) (fun _ => 0) 3 sampleInactiveCamera 1 1
         = { Camera.moveFront (fun _ => 0) (fun _ => 0) (fun _ => 0) 3
               { sampleInactiveCamera with active := true } 1 1 with
             active := false }) :=
  ⟨by decide,
   inactive_camera_moves (fun _ => 0) (fun _ => 0) (fun _ => 0) 3
     sampleInactiveCamera 1 1 (by decide)⟩

/- ## C4: pitch clamping -/

/-- One move_front call leaves pitch inside [-90, 90]: the accumulated pitch
is clamped at both bounds before the front vector is recomputed. -/
theorem moveFront_pitch_mem {K : Type} [LinearOrderedField K]
    (cosF sinF sqrtF : K → K) (piK : K) (c : Camera K) (x y : K) :
    (Camera.moveFront cosF sinF sqrtF piK c x y).pitch ∈ Set.Icc (-90 : K) 90 := by
  simp only [Camera.moveFront, Set.mem_Icc]
  set p := c.pitch + c.sensitivity * (c.last_ypos - y) with hp
  split_ifs with h1 h2
  · constructor <;> linarith
  · constructor <;> linarith
  · constructor <;> linarith

/-- C4: for every camera and every finite sequence of move_front calls with
arbitrary cursor positions, the pitch lies in [-90, 90] after each call
(i.e. after every nonempty prefix of the sequence). -/
theorem pitch_clamped_after_each_call {K : Type} [LinearOrderedField K]
    (cosF sinF sqrtF : K → K) (piK : K) (c : Camera K)
    (calls : List (K × K)) (i : ℕ) (hi : i < calls.length) :
    ((calls.take (i + 1)).foldl
        (fun cam q => Camera.moveFront cosF sinF sqrtF piK cam q.1 q.2) c).pitch
      ∈ Set.Icc (-90 : K) 90 := by
  rcases List.eq_nil_or_concat (calls.take (i + 1)) with hnil | ⟨l, a, hconc⟩
  · have hlen := List.length_take (i + 1) calls
    rw [hnil] at hlen
    simp at hlen
    omega
  · rw [hconc, List.concat_eq_append, List.foldl_append, List.foldl_cons, List.foldl_nil]
    exact moveFront_pitch_mem cosF sinF sqrtF piK _ a.1 a.2

/-- C4 witness: the theorem applied to the concrete default camera and a
single concrete cursor move. -/
theorem pitch_clamped_after_each_call_witness :
    0 < [((1 : ℚ), (1 : ℚ))].length ∧
      (([((1 : ℚ), (1 : ℚ))].take (0 + 1)).foldl
          (fun cam q => Camera.moveFront (fun _ => 0) (fun _ => 0) (fun _ => 0) 3 cam q.1 q.2)
          sampleCamera).pitch
        ∈ Set.Icc (-90 : ℚ) 90 :=
  ⟨by decide,
   pitch_clamped_after_each_call (fun _ => 0) (fun _ => 0) (fun _ => 0) 3 sampleCamera
     [(1, 1)] 0 (by decide)⟩

/- ## C5: RestrictedCamera bounding box -/

/-- A guarded move from a state inside the box stays inside the box: either
the moved position passes check_position, or the position is reverted to the
previous (in-box) one while the bounds are untouched. -/
theorem guardedMove_checkPosition {K : Type} [LinearOrderedField K]
    (rc : RestrictedCamera K) (F : Camera K → Camera K)
    (h : rc.checkPosition = true) : (rc.guardedMove F).checkPosition = true := by
  unfold RestrictedCamera.guardedMove
  dsimp only
  split
  · assumption
  · exact h

/-- Any single move command preserves check_position. -/
theorem applyMove_checkPosition {K : Type} [LinearOrderedField K] (sqrtF : K → K)
    (rc : RestrictedCamera K) (m : MoveCmd)
    (h : rc.checkPosition = true) : (rc.applyMove sqrtF m).checkPosition = true := by
  cases m <;>
    exact guardedMove_checkPosition rc _ h

/-- Any sequence of move commands preserves check_position. -/
theorem applyMoves_checkPosition {K : Type} [LinearOrderedField K] (sqrtF : K → K)
    (moves : List MoveCmd) : ∀ rc : RestrictedCamera K,
    rc.checkPosition = true → (rc.applyMoves sqrtF moves).checkPosition = true := by
  induction moves with
  | nil => intro rc h; exact h
  | cons m rest ih =>
      intro rc h
      exact ih _ (applyMove_checkPosition sqrtF rc m h)

/-- A move whose unguarded result fails check_position leaves the position
reverted to its previous value. -/
theorem rawMove_failed_reverts {K : Type} [LinearOrderedField K] (sqrtF : K → K)
    (rc : RestrictedCamera K) (m : MoveCmd)
    (h : (rc.rawMove sqrtF m).checkPosition = false) :
    (rc.applyMove sqrtF m).position = rc.position := by
  cases m <;>
    · simp only [RestrictedCamera.applyMove, RestrictedCamera.moveForward,
        RestrictedCamera.moveRight, RestrictedCamera.moveBackward, RestrictedCamera.moveLeft,
        RestrictedCamera.guardedMove, RestrictedCamera.rawMove] at h ⊢
      rw [h]
      simp

/-- C5 counterexample: a RestrictedCamera constructed with the default bounds
but an initial position outside the box still lies outside the box after a
move call — the revert restores the out-of-box position, so the claim fails
without an in-box initial-position assumption. -/
theorem restricted_camera_box_counterexample :
    (rcOutside.moveForward).checkPosition = false ∧
      (rcOutside.moveForward).position.x > (rcOutside.moveForward).max_xpos := by
  constructor
  · norm_num [rcOutside, Camera.init, RestrictedCamera.moveForward, RestrictedCamera.guardedMove,
      Camera.moveForward, RestrictedCamera.checkPosition, Vec3.add, Vec3.smul]
  · norm_num [rcOutside, Camera.init, RestrictedCamera.moveForward, RestrictedCamera.guardedMove,
      Camera.moveForward, RestrictedCamera.checkPosition, Vec3.add, Vec3.smul]

/-- C5 (amended): provided the camera starts inside its configured box, after
every positional move call the position remains inside the box; moreover any
move whose resulting position would fall outside the box reverts the
position to its previous value. -/
theorem restricted_camera_box_invariant {K : Type} [LinearOrderedField K] (sqrtF : K → K)
    (rc : RestrictedCamera K) (h : rc.checkPosition = true) :
    (∀ (moves : List MoveCmd) (i : ℕ),
        (rc.applyMoves sqrtF (moves.take i)).checkPosition = true) ∧
    (∀ (rc2 : RestrictedCamera K) (m : MoveCmd),
        (rc2.rawMove sqrtF m).checkPosition = false →
        (rc2.applyMove sqrtF m).position = rc2.position) :=
  ⟨fun moves i => applyMoves_checkPosition sqrtF (moves.take i) rc h,
   fun rc2 m hf => rawMove_failed_reverts sqrtF rc2 m hf⟩

/-- C5 witness: the amended theorem applied to the concrete in-box camera. -/
theorem restricted_camera_box_invariant_witness :
    RestrictedCamera.checkPosition rcInside = true ∧
      ((∀ (moves : List MoveCmd) (i : ℕ),
          (rcInside.applyMoves (fun _ => 0) (moves.take i)).checkPosition = true) ∧
       (∀ (rc2 : RestrictedCamera ℚ) (m : MoveCmd),
          (rc2.rawMove (fun _ => 0) m).checkPosition = false →
          (rc2.applyMove (fun _ => 0) m).position = rc2.position)) :=
  ⟨by decide, restricted_camera_box_invariant (fun _ => 0) rcInside (by decide)⟩

/- ## C1: render draw calls -/

/-- The render loop produces one draw call per material. -/
theorem renderMaterials_length (idx offset : ℕ) (mts : List Material) :
    (renderMaterials idx offset mts).length = mts.length := by
  induction mts generalizing idx offset with
  | nil => rfl
  | cons mt rest ih => simp [renderMaterials, ih]

/-- The vertex counts of the draw calls sum to the total vertex count. -/
theorem renderMaterials_count_sum (idx offset : ℕ) (mts : List Material) :
    ((renderMaterials idx offset mts).map DrawCall.count).sum
      = (mts.map fun m => m.vertices.length).sum := by
  induction mts generalizing idx offset with
  | nil => rfl
  | cons mt rest ih => simp [renderMaterials, ih]

/-- The j-th draw call binds the j-th material, starts at the running offset
plus the cumulative vertex count of the previous materials, and covers that
material's vertex count. -/
theorem renderMaterials_getElem (mts : List Material) (idx offset j : ℕ) (mt : Material)
    (hm : mts[j]? = some mt) :
    (renderMaterials idx offset mts)[j]?
      = some { idx := idx + j, ka := mt.ka, kd := mt.kd, ks := mt.ks, ns := mt.ns,
               model := mt.model,
               offset := offset + ((mts.take j).map fun m => m.vertices.length).sum,
               count := mt.vertices.length } := by
  induction mts generalizing idx offset j with
  | nil => simp at hm
  | cons m rest ih =>
      cases j with
      | zero =>
          rw [List.getElem?_cons_zero] at hm
          injection hm with hm
          subst hm
          simp [renderMaterials]
      | succ j =>
          rw [List.getElem?_cons_succ] at hm
          rw [renderMaterials, List.getElem?_cons_succ]
          rw [ih (idx + 1) (offset + m.vertices.length) j hm]
          simp [List.take_succ_cons]
          constructor
          · omega
          · omega

/-- C1: on a session whose buffers are processed, a render() call succeeds
and issues one draw call per registered material in registration order; the
draw-call vertex counts sum to the total vertex count, and the i-th draw
call starts at the cumulative vertex count of materials 0..i-1 and covers
the i-th material's vertex count. -/
theorem render_draw_calls (s : Session) (h : s.buffered = true) :
    ∃ calls : List DrawCall, s.render = Except.ok calls ∧
      calls.length = s.materials.length ∧
      (calls.map DrawCall.count).sum = (s.materials.map fun m => m.vertices.length).sum ∧
      ∀ j, j < s.materials.length → ∃ (call : DrawCall) (mt : Material),
        calls[j]? = some call ∧ s.materials[j]? = some mt ∧
        call.idx = j ∧ call.count = mt.vertices.length ∧
        call.offset = ((s.materials.take j).map fun m => m.vertices.length).sum := by
  refine ⟨renderMaterials 0 0 s.materials, ?_,
    renderMaterials_length 0 0 s.materials, renderMaterials_count_sum 0 0 s.materials, ?_⟩
  · simp [Session.render, h]
  · intro j hj
    obtain ⟨mt, hmt⟩ : ∃ mt, s.materials[j]? = some mt :=
      ⟨s.materials[j], List.getElem?_eq_getElem hj⟩
    refine ⟨_, mt, renderMaterials_getElem s.materials 0 0 j mt hmt, hmt, ?_, rfl, ?_⟩
    · simp
    · simp

/-- C1 witness: the theorem applied to the concrete processed session. -/
theorem render_draw_calls_witness :
    Session.buffered sampleReadySession = true ∧
      (∃ calls : List DrawCall, sampleReadySession.render = Except.ok calls ∧
        calls.length = sampleReadySession.materials.length ∧
        (calls.map DrawCall.count).sum
          = (sampleReadySession.materials.map fun m => m.vertices.length).sum ∧
        ∀ j, j < sampleReadySession.materials.length → ∃ (call : DrawCall) (mt : Material),
          calls[j]? = some call ∧ sampleReadySession.materials[j]? = some mt ∧
          call.idx = j ∧ call.count = mt.vertices.length ∧
          call.offset = ((sampleReadySession.materials.take j).map
            fun m => m.vertices.length).sum) :=
  ⟨rfl, render_draw_calls sampleReadySession rfl⟩

/- ## C2: render before process_buffers -/

/-- The buffered flag after a run of lifecycle calls is the fold of the
per-call effect on the flag: add_component keeps it, clear_components
clears it, process_buffers sets it. -/
theorem runOps_buffered (ops : List SessionOp) : ∀ s : Session,
    (s.runOps ops).buffered
      = ops.foldl
          (fun b op =>
            match op with
            | SessionOp.addComponent _ => b
            | SessionOp.clearComponents => false
            | SessionOp.processBuffers => true)
          s.buffered := by
  induction ops with
  | nil => intro s; rfl
  | cons op rest ih =>
      intro s
      rw [Session.runOps, List.foldl_cons, List.foldl_cons]
      have h1 : (s.applyOp op).buffered
          = (match op with
             | SessionOp.addComponent _ => s.buffered
             | SessionOp.clearComponents => false
             | SessionOp.processBuffers => true) := by
        cases op <;> rfl
      rw [← h1]
      exact ih (s.applyOp op)

/-- C2: after any sequence of lifecycle calls on a fresh session, render()
raises UninitializedBufferException exactly when no process_buffers call
occurs after the most recent clear_components call (or at all). -/
theorem render_raises_iff_unbuffered (ops : List SessionOp) :
    (newSession.runOps ops).render = Except.error SessionError.uninitializedBufferException
      ↔ readySpec ops = false := by
  have hb : (newSession.runOps ops).buffered = readySpec ops := runOps_buffered ops newSession
  rw [Session.render, hb]
  constructor
  · intro h
    by_contra hne
    rw [if_neg (by simp [Bool.not_eq_false] at hne ⊢; simp [hne])] at h
    exact Except.noConfusion h
  · intro h
    rw [if_pos h]

/- ## C3: add_component after Ready -/

/-- C3 counterexample: after process_buffers, a further add_component does
not take the session out of the Ready state — the following render() does
not raise the uninitialized-buffer error, contrary to the claim. -/
theorem addComponent_render_counterexample :
    (newSession.runOps [SessionOp.addComponent sampleComponent, SessionOp.processBuffers,
        SessionOp.addComponent sampleComponent]).render
      ≠ Except.error SessionError.uninitializedBufferException := by
  intro h
  rw [show (newSession.runOps [SessionOp.addComponent sampleComponent, SessionOp.processBuffers,
      SessionOp.addComponent sampleComponent]).render
      = Except.ok (renderMaterials 0 0 [sampleMaterial, sampleMaterial]) from rfl] at h
  exact Except.noConfusion h

/-- C3 (amended): add_component on a Ready session leaves the buffered flag
set, so render() is still permitted and does not raise; the processed
buffer contents are unchanged (buffers are not incrementally updated), so
clear_components() followed by process_buffers() is required before the new
materials' vertex data is in the buffers. -/
theorem addComponent_keeps_ready (s : Session) (c : WaveFrontComponent)
    (h : s.buffered = true) :
    (s.addComponent c).buffered = true ∧
    (∃ calls : List DrawCall, (s.addComponent c).render = Except.ok calls) ∧
    (s.addComponent c).posBuffer = s.posBuffer ∧
    (s.addComponent c).texBuffer = s.texBuffer ∧
    (s.addComponent c).normBuffer = s.normBuffer := by
  refine ⟨h, ⟨renderMaterials 0 0 (s.materials ++ c.materials), ?_⟩, rfl, rfl, rfl⟩
  simp [Session.render, Session.addComponent, h]

/-- C3 witness: the amended theorem applied to the concrete processed
session. -/
theorem addComponent_keeps_ready_witness :
    Session.buffered sampleReadySession = true ∧
      ((sampleReadySession.addComponent sampleComponent).buffered = true ∧
       (∃ calls : List DrawCall,
          (sampleReadySession.addComponent sampleComponent).render = Except.ok calls) ∧
       (sampleReadySession.addComponent sampleComponent).posBuffer
         = sampleReadySession.posBuffer ∧
       (sampleReadySession.addComponent sampleComponent).texBuffer
         = sampleReadySession.texBuffer ∧
       (sampleReadySession.addComponent sampleComponent).normBuffer
         = sampleReadySession.normBuffer) :=
  ⟨rfl, addComponent_keeps_ready sampleReadySession sampleComponent rfl⟩

/- ## C7: Circle vertex generation -/

/-- Closed form of the i-th circle angle: np.linspace yields
start + i * step with step = (stop - start)/(num - 1). -/
theorem circleAngles_getElem {K : Type} [Field K] (piK : K) (N i : ℕ) (hi : i < N) :
    (circleAngles piK N)[i]?
      = some (2 * piK / (N : K)
          + (i : K) * ((2 * piK - 2 * piK / (N : K)) / ((N - 1 : ℕ) : K))) := by
  rw [circleAngles, linspace, List.getElem?_map, List.getElem?_range hi]
  rfl

/-- The linspace step of the circle angles equals 2π/N. -/
theorem circle_spacing_step (N : ℕ) (hN : 3 ≤ N) :
    (2 * Real.pi - 2 * Real.pi / (N : ℝ)) / ((N - 1 : ℕ) : ℝ) = 2 * Real.pi / (N : ℝ) := by
  have h1 : (1 : ℕ) ≤ N := by omega
  have hN0 : (N : ℝ) ≠ 0 := Nat.cast_ne_zero.mpr (by omega)
  have hN1 : ((N - 1 : ℕ) : ℝ) ≠ 0 := Nat.cast_ne_zero.mpr (by omega)
  rw [Nat.cast_sub h1]
  push_cast
  rw [Nat.cast_sub h1] at hN1
  push_cast at hN1
  field_simp
  ring

/-- C7: for valid circle parameters (radius r ≥ 0, vertex count N ≥ 3) every
generated vertex lies at distance r from the center, the angles run from
2π/N to 2π, and consecutive angles differ by exactly 2π/N. -/
theorem circle_distance_and_spacing (x0 y0 r : ℝ) (N : ℕ) (hN : 3 ≤ N) (hr : 0 ≤ r) :
    (∀ v ∈ circleVertices Real.cos Real.sin Real.pi x0 y0 r N,
        Real.sqrt ((v.1 - x0) ^ 2 + (v.2 - y0) ^ 2) = r) ∧
    (circleAngles Real.pi N)[0]? = some (2 * Real.pi / (N : ℝ)) ∧
    (circleAngles Real.pi N)[N - 1]? = some (2 * Real.pi) ∧
    (∀ i : ℕ, i + 1 < N → ∃ a b : ℝ,
        (circleAngles Real.pi N)[i]? = some a ∧ (circleAngles Real.pi N)[i + 1]? = some b ∧
        b - a = 2 * Real.pi / (N : ℝ)) := by
  have hN0 : (N : ℝ) ≠ 0 := Nat.cast_ne_zero.mpr (by omega)
  have hN1 : ((N - 1 : ℕ) : ℝ) ≠ 0 := Nat.cast_ne_zero.mpr (by omega)
  refine ⟨?_, ?_, ?_, ?_⟩
  · intro v hv
    simp only [circleVertices, List.mem_map] at hv
    obtain ⟨t, ht, rfl⟩ := hv
    have key : (x0 + Real.cos t * r - x0) ^ 2 + (y0 + Real.sin t * r - y0) ^ 2 = r ^ 2 := by
      have h1 := Real.sin_sq_add_cos_sq t
      nlinarith [h1]
    rw [key, Real.sqrt_sq hr]
  · rw [circleAngles_getElem Real.pi N 0 (by omega)]
    simp
  · rw [circleAngles_getElem Real.pi N (N - 1) (by omega)]
    rw [circle_spacing_step N hN]
    congr 1
    rw [Nat.cast_sub (by omega : (1 : ℕ) ≤ N)]
    push_cast
    field_simp
    ring
  · intro i hi
    refine ⟨_, _, circleAngles_getElem Real.pi N i (by omega),
      circleAngles_getElem Real.pi N (i + 1) (by omega), ?_⟩
    rw [circle_spacing_step N hN]
    push_cast
    ring

/-- C7 witness: the theorem applied to the unit circle at the origin with
four vertices. -/
theorem circle_distance_and_spacing_witness :
    (3 ≤ 4 ∧ (0 : ℝ) ≤ 1) ∧
      ((∀ v ∈ circleVertices Real.cos Real.sin Real.pi 0 0 1 4,
          Real.sqrt ((v.1 - 0) ^ 2 + (v.2 - 0) ^ 2) = 1) ∧
       (circleAngles Real.pi 4)[0]? = some (2 * Real.pi / ((4 : ℕ) : ℝ)) ∧
       (circleAngles Real.pi 4)[4 - 1]? = some (2 * Real.pi) ∧
       (∀ i : ℕ, i + 1 < 4 → ∃ a b : ℝ,
          (circleAngles Real.pi 4)[i]? = some a ∧
          (circleAngles Real.pi 4)[i + 1]? = some b ∧
          b - a = 2 * Real.pi / ((4 : ℕ) : ℝ))) :=
  ⟨⟨by decide, zero_le_one⟩, circle_distance_and_spacing 0 0 1 4 (by decide) zero_le_one⟩
